import Mathlib

/-!
Verification of the homework-status polling bot (`homework.py`) against its
natural-language specification.

The Python module is shallowly embedded below.  JSON/Python values are the
inductive `JValue`; Python exceptions are the inductive `PyExc` (one
constructor per exception class that the program can raise or catch, with the
class hierarchy facts `isRequestException` / `isApiException` recorded as
predicates); logging calls are collected in an explicit `List LogEntry`;
fallible functions return `Except PyExc`.  Network and chat transports are
opaque environments: an `IterEnv` records, for one iteration of the poll
loop, what the HTTP layer returns for a request and how each successive
`bot.send_message` call behaves.  The infinite `while True` loop is observed
through finite traces: `mainLoop` runs one iteration per supplied
environment, stopping early only if an iteration raises.
-/

/-- A JSON / untyped Python value, as decoded from the API response body. -/
inductive JValue where
  | null : JValue
  | bool : Bool → JValue
  | num : Int → JValue
  | str : String → JValue
  | arr : List JValue → JValue
  | obj : List (String × JValue) → JValue

/-- Python exception values relevant to `homework.py`, one constructor per
class, each carrying the message it was constructed with. -/
inductive PyExc where
  | typeError : String → PyExc
  | keyError : String → PyExc
  | valueError : String → PyExc
  | assertionError : String → PyExc
  | httpError : String → PyExc
  | connectionError : String → PyExc
  | jsonDecodeError : String → PyExc
  | apiException : String → PyExc
  | attributeError : String → PyExc
  deriving DecidableEq, Repr

/-- Class-hierarchy fact: which of the classes above are subclasses of
`requests.RequestException` (so are caught by
`except requests.RequestException`).  `requests.HTTPError` and
`requests.exceptions.JSONDecodeError` both are. -/
def PyExc.isRequestException : PyExc → Bool
  | .httpError _ => true
  | .connectionError _ => true
  | .jsonDecodeError _ => true
  | _ => false

/-- Class-hierarchy fact: which classes are subclasses of
`telebot.apihelper.ApiException`. -/
def PyExc.isApiException : PyExc → Bool
  | .apiException _ => true
  | _ => false

/-- The message carried by the exception. -/
def PyExc.msg : PyExc → String
  | .typeError m | .keyError m | .valueError m | .assertionError m
  | .httpError m | .connectionError m | .jsonDecodeError m
  | .apiException m | .attributeError m => m

/-- Python `str(exc)`: for `KeyError` this is the `repr` of its argument
(the message wrapped in single quotes); for the other classes here it is the
message itself. -/
def PyExc.pyStr : PyExc → String
  | .keyError m => "\x27" ++ m ++ "\x27"
  | e => e.msg

/-- The Python class name of the exception: two failures are "distinct error
kinds" exactly when their classes differ. -/
def PyExc.kind : PyExc → String
  | .typeError _ => "TypeError"
  | .keyError _ => "KeyError"
  | .valueError _ => "ValueError"
  | .assertionError _ => "AssertionError"
  | .httpError _ => "HTTPError"
  | .connectionError _ => "ConnectionError"
  | .jsonDecodeError _ => "JSONDecodeError"
  | .apiException _ => "ApiException"
  | .attributeError _ => "AttributeError"

/-- Severity of a record emitted through `logging`. -/
inductive LogLevel where
  | debug : LogLevel
  | error : LogLevel
  | critical : LogLevel
  deriving DecidableEq, Repr

/-- One record emitted through `logging`. -/
structure LogEntry where
  level : LogLevel
  text : String
  deriving DecidableEq, Repr

/-- A fallible computation together with the log records it emitted. -/
abbrev PyResult (α : Type) := Except PyExc α × List LogEntry

/-- Key lookup in a JSON object (Python `dict` indexing; keys are unique in a
Python dict, and an association list read through first-match lookup models
it). -/
def jGet : List (String × JValue) → String → Option JValue
  | [], _ => none
  | (k, v) :: rest, key => if k = key then some v else jGet rest key

/-- Python `dict.get(key)` as used on a decoded JSON object: a missing key
yields Python `None`, and a JSON `null` value decodes to Python `None` as
well, so both cases map to `none`. -/
def pyGet (fields : List (String × JValue)) (key : String) : Option JValue :=
  match jGet fields key with
  | some JValue.null => none
  | some v => some v
  | none => none

/-- Python type name of a value, as it appears in an `AttributeError`. -/
def JValue.pyTypeName : JValue → String
  | .null => "NoneType"
  | .bool _ => "bool"
  | .num _ => "int"
  | .str _ => "str"
  | .arr _ => "list"
  | .obj _ => "dict"

mutual
/-- Python `repr` of a decoded JSON value (string quoting approximated with
single quotes, as CPython prefers). -/
def JValue.pyRepr : JValue → String
  | .null => "None"
  | .bool true => "True"
  | .bool false => "False"
  | .num n => toString n
  | .str s => "\x27" ++ s ++ "\x27"
  | .arr xs => "[" ++ String.intercalate ", " (JValue.pyReprList xs) ++ "]"
  | .obj kvs => "\x7b" ++ String.intercalate ", " (JValue.pyReprFields kvs) ++ "\x7d"

/-- `repr` of the elements of a JSON array. -/
def JValue.pyReprList : List JValue → List String
  | [] => []
  | v :: rest => JValue.pyRepr v :: JValue.pyReprList rest

/-- `repr` of the fields of a JSON object. -/
def JValue.pyReprFields : List (String × JValue) → List String
  | [] => []
  | (k, v) :: rest =>
      ("\x27" ++ k ++ "\x27: " ++ JValue.pyRepr v) :: JValue.pyReprFields rest
end

/-- Python `str()` of a decoded JSON value, as interpolated by an f-string:
strings are taken verbatim, every other value renders as its `repr`. -/
def JValue.pyStr : JValue → String
  | .str s => s
  | v => v.pyRepr

/-- Python `str()` of an optional value, where `none` is Python `None`. -/
def pyOptStr : Option JValue → String
  | none => "None"
  | some v => v.pyStr

/-- `HOMEWORK_VERDICTS`: the closed verdict table of `homework.py`. -/
def HOMEWORK_VERDICTS : List (String × String) :=
  [("approved", "Работа проверена: ревьюеру всё понравилось. Ура!"),
   ("reviewing", "Работа взята на проверку ревьюером."),
   ("rejected", "Работа проверена: у ревьюера есть замечания.")]

/-- `RETRY_PERIOD`: the fixed sleep between iterations, in seconds. -/
def RETRY_PERIOD : Nat := 600

/-- Python truthiness of an optional environment string: `None` and the
empty string are falsy (`all([...])` in `check_tokens` tests exactly this). -/
def truthy : Option String → Bool
  | none => false
  | some s => !(s = "")

/-- `check_tokens()`: raises `ValueError` when any of the three secrets is
falsy; the enumerated names are only those whose value `is None`. -/
def check_tokens (practicum_token telegram_token telegram_chat_id :
    Option String) : PyResult Unit :=
  if truthy practicum_token && truthy telegram_token &&
      truthy telegram_chat_id then
    (.ok (), [])
  else
    let missing_tokens : List String :=
      (if practicum_token = none then ["PRACTICUM_TOKEN"] else []) ++
      (if telegram_token = none then ["TELEGRAM_TOKEN"] else []) ++
      (if telegram_chat_id = none then ["TELEGRAM_CHAT_ID"] else [])
    let m := "Отсутствуют обязательные переменные окружения: " ++
      String.intercalate ", " missing_tokens
    (.error (.valueError m), [⟨.critical, m⟩])

/-- `send_message(bot, message)`: hands the message to `bot.send_message`
(whose behaviour this iteration is the environment-supplied `outcome`:
`none` for success, `some e` when the transport raises `e`).  Only
`apihelper.ApiException` is caught and logged; any other exception
propagates to the caller. -/
def send_message (message : String) (outcome : Option PyExc) :
    PyResult Unit :=
  match outcome with
  | none =>
      (.ok (), [⟨.debug, "Бот отправил сообщение: \"" ++ message ++ "\""⟩])
  | some e =>
      if e.isApiException then
        (.ok (), [⟨.error, "Сбой при отправке сообщения в Telegram: " ++
          e.pyStr⟩])
      else
        (.error e, [])

/-- `handle_api_error(response)`: raises `requests.HTTPError` when the
status code is not `http.HTTPStatus.OK` (200). -/
def handle_api_error (status_code : Nat) : PyResult Unit :=
  if status_code ≠ 200 then
    let error_message :=
      "API вернул неожиданный статус: " ++ toString status_code
    (.error (.httpError error_message), [⟨.error, error_message⟩])
  else
    (.ok (), [])

/-- What the HTTP layer does for one `requests.get` call: either
`requests.get` itself raises a `RequestException` (connection failure,
timeout, ...), or a response arrives with a status code and a body whose
JSON decoding succeeds or fails. -/
inductive BodyOutcome where
  | ok : JValue → BodyOutcome
  | decodeFail : String → BodyOutcome

/-- The HTTP layer's behaviour, as a function of the `from_date` parameter
the program sends. -/
inductive FetchOutcome where
  | netFail : String → FetchOutcome
  | response : Nat → BodyOutcome → FetchOutcome

/-- `get_api_answer(timestamp)`: performs the request, checks the status
via `handle_api_error`, decodes the body; any `requests.RequestException`
raised inside the `try` block — including the `HTTPError` raised by
`handle_api_error` and a `JSONDecodeError` from `response.json()`, both
subclasses of `RequestException` — is re-raised as an `AssertionError`
wrapping `str(err)`. -/
def get_api_answer (timestamp : Nat) (net : Nat → FetchOutcome) :
    PyResult JValue :=
  let inner : PyResult JValue :=
    match net timestamp with
    | .netFail m => (.error (.connectionError m), [])
    | .response status_code body =>
        match handle_api_error status_code with
        | (.error e, logs) => (.error e, logs)
        | (.ok _, logs) =>
            match body with
            | .ok v => (.ok v, logs)
            | .decodeFail m => (.error (.jsonDecodeError m), logs)
  match inner with
  | (.ok v, logs) => (.ok v, logs)
  | (.error e, logs) =>
      if e.isRequestException then
        let error_message := "Ошибка запроса к API: " ++ e.pyStr
        (.error (.assertionError error_message),
         logs ++ [⟨.error, error_message⟩])
      else
        (.error e, logs)

/-- `check_response(response)`: shape validation of the decoded payload.
Returns the `homeworks` list itself on success. -/
def check_response (response : JValue) : PyResult (List JValue) :=
  match response with
  | .obj fields =>
      match jGet fields "homeworks" with
      | none =>
          let m := "Отсутствуют ключи в ответе API"
          (.error (.keyError m), [⟨.error, m⟩])
      | some homeworks =>
          match homeworks with
          | .arr items => (.ok items, [])
          | _ =>
              let m := "Данные под ключом \"homeworks\" должны быть списком"
              (.error (.typeError m), [⟨.error, m⟩])
  | _ =>
      let m := "Ответ API должен быть словарем"
      (.error (.typeError m), [⟨.error, m⟩])

/-- Whether a decoded JSON value is hashable in Python, i.e. usable as a
`dict` key: decoded arrays are lists and decoded objects are dicts, both
unhashable; strings, numbers, booleans and `None` are hashable. -/
def JValue.hashable : JValue → Bool
  | .arr _ => false
  | .obj _ => false
  | _ => true

/-- Hashability of an optional value, where `none` is Python `None`
(hashable). -/
def pyHashable : Option JValue → Bool
  | none => true
  | some v => v.hashable

/-- `HOMEWORK_VERDICTS.get(homework_status)`: dictionary lookup of an
arbitrary Python value against the string keys of the verdict table.  Only
an equal string can match; a hashable non-string key (`None`, a number, a
bool) simply finds nothing; an unhashable key (a decoded JSON array or
object, i.e. a Python list or dict) makes `dict.get` itself raise
`TypeError: unhashable type`. -/
def verdictFor : Option JValue → Except PyExc (Option String)
  | some (.str s) => .ok (HOMEWORK_VERDICTS.lookup s)
  | some (.arr _) => .error (.typeError "unhashable type: \x27list\x27")
  | some (.obj _) => .error (.typeError "unhashable type: \x27dict\x27")
  | _ => .ok none

/-- `parse_status(homework)`: reads `homework_name` and `status` through
`dict.get`, raises `KeyError` when the name is Python `None`, then looks
the status up in the verdict table — the lookup itself raises `TypeError`
on an unhashable status value, a failed lookup raises `ValueError` — and
otherwise formats the notification sentence.  On a non-dict item, `.get`
raises `AttributeError`. -/
def parse_status (homework : JValue) : PyResult String :=
  match homework with
  | .obj fields =>
      let homework_name := pyGet fields "homework_name"
      let homework_status := pyGet fields "status"
      match homework_name with
      | none =>
          let m := "Отсутствует ключ \"homework_name\" в домашней работе"
          (.error (.keyError m), [⟨.error, m⟩])
      | some nameVal =>
          match verdictFor homework_status with
          | .error e => (.error e, [])
          | .ok (some verdict) =>
              (.ok ("Изменился статус проверки работы \"" ++ nameVal.pyStr ++
                "\". " ++ verdict), [])
          | .ok none =>
              (.error (.valueError ("Неожиданный статус: " ++
                 pyOptStr homework_status)),
               [⟨.error, "Неожиданный статус домашней работы: " ++
                 pyOptStr homework_status⟩])
  | other =>
      (.error (.attributeError ("\x27" ++ other.pyTypeName ++
        "\x27 object has no attribute \x27get\x27")), [])

/-- The opaque transports for one iteration of the poll loop: `net` is the
HTTP layer's behaviour as a function of the `from_date` sent, and `sendNet n`
is how `bot.send_message` behaves on the n-th send call of the iteration
(`none` = delivered, `some e` = the transport raises `e`). -/
structure IterEnv where
  net : Nat → FetchOutcome
  sendNet : Nat → Option PyExc

/-- The observable outcome of one iteration of the `while True` loop. -/
structure IterResult where
  /-- the `from_date` value of each API request issued this iteration -/
  fetched : List Nat
  /-- each message handed to `bot.send_message`, in call order -/
  attempts : List String
  /-- the log records emitted this iteration -/
  logs : List LogEntry
  /-- whether `time.sleep(RETRY_PERIOD)` was reached -/
  slept : Bool
  /-- an exception escaping the iteration (this terminates the loop) -/
  raised : Option PyExc

/-- The `for homework in homeworks:` body: translate each item in order and
hand the message to `send_message`; the first exception (a translation
failure, or a non-`ApiException` escaping `send_message`) aborts the loop
body.  Returns the messages attempted, the logs, and that exception if any.
`n` counts the send calls already made this iteration. -/
def processHomeworks (sendNet : Nat → Option PyExc) (n : Nat) :
    List JValue → List String × List LogEntry × Option PyExc
  | [] => ([], [], none)
  | homework :: rest =>
      match parse_status homework with
      | (.error e, plogs) => ([], plogs, some e)
      | (.ok message, plogs) =>
          match send_message message (sendNet n) with
          | (.error e, slogs) => ([message], plogs ++ slogs, some e)
          | (.ok _, slogs) =>
              let (atts, logs2, err) := processHomeworks sendNet (n + 1) rest
              (message :: atts, plogs ++ slogs ++ logs2, err)

/-- The body of the `try:` block of one iteration: fetch, validate, then
either report «Нет новых статусов» for an empty list or process the items.
Returns the messages attempted, the logs, and the exception reaching the
`except Exception` handler if any. -/
def tryBlock (timestamp : Nat) (env : IterEnv) :
    List String × List LogEntry × Option PyExc :=
  match get_api_answer timestamp env.net with
  | (.error e, logs) => ([], logs, some e)
  | (.ok response, logs) =>
      match check_response response with
      | (.error e, logs2) => ([], logs ++ logs2, some e)
      | (.ok homeworks, logs2) =>
          if homeworks.isEmpty then
            ([], logs ++ logs2 ++ [⟨.debug, "Нет новых статусов"⟩], none)
          else
            let (atts, logs3, err) := processHomeworks env.sendNet 0 homeworks
            (atts, logs ++ logs2 ++ logs3, err)

/-- One iteration of the `while True` loop: run the `try:` block; on an
exception, format «Сбой в работе программы: ...», attempt to send it, log it
and sleep — unless that very send raises a non-`ApiException`, which escapes
the iteration (nothing catches it) and so terminates the loop. -/
def mainIteration (timestamp : Nat) (env : IterEnv) : IterResult :=
  match tryBlock timestamp env with
  | (atts, logs, none) =>
      { fetched := [timestamp], attempts := atts, logs := logs,
        slept := true, raised := none }
  | (atts, logs, some e) =>
      let message := "Сбой в работе программы: " ++ e.pyStr
      match send_message message (env.sendNet atts.length) with
      | (.ok _, slogs) =>
          { fetched := [timestamp], attempts := atts ++ [message],
            logs := logs ++ slogs ++ [⟨.error, message⟩],
            slept := true, raised := none }
      | (.error e2, slogs) =>
          { fetched := [timestamp], attempts := atts ++ [message],
            logs := logs ++ slogs, slept := false, raised := some e2 }

/-- The `while True` loop observed for finitely many iterations, one
environment per iteration; an exception escaping an iteration stops the
loop and is returned. -/
def mainLoop (timestamp : Nat) : List IterEnv → List IterResult × Option PyExc
  | [] => ([], none)
  | env :: rest =>
      let r := mainIteration timestamp env
      match r.raised with
      | some e => ([r], some e)
      | none =>
          let (recs, exc) := mainLoop timestamp rest
          (r :: recs, exc)

/-- `main()` (named `mainProgram` here because Lean reserves `main` for an
entry point): check the secrets (fatal on failure, before any network
activity), bind `timestamp` once to the startup wall-clock time, then run
the loop.  The binding of `timestamp` is the only assignment to it in the
program. -/
def mainProgram (startTime : Nat) (practicum_token telegram_token telegram_chat_id :
    Option String) (envs : List IterEnv) :
    Except PyExc (List IterResult × Option PyExc) :=
  match (check_tokens practicum_token telegram_token telegram_chat_id).fst with
  | .error e => .error e
  | .ok _ =>
      let timestamp := startTime
      .ok (mainLoop timestamp envs)

/-- Spec-side predicate (§4.3): the payload root is a key/value mapping. -/
def specIsMapping : JValue → Bool
  | .obj _ => true
  | _ => false

/-- Spec-side predicate (§4.3): the payload has a `homeworks` key. -/
def specHasHomeworksKey : JValue → Bool
  | .obj fields => (jGet fields "homeworks").isSome
  | _ => false

/-- Spec-side predicate (§4.3): the `homeworks` value is an ordered
sequence. -/
def specHomeworksIsList : JValue → Bool
  | .obj fields =>
      match jGet fields "homeworks" with
      | some (.arr _) => true
      | _ => false
  | _ => false

/-- C5: for every work item whose `homework_name` field holds a string
(possibly empty) and whose `status` is one of the three known verdict
codes, `parse_status` returns exactly
«Изменился статус проверки работы "{name}". {verdict}» with the table text
as the verdict, and emits no log. -/
theorem parse_status_known_status (fields : List (String × JValue))
    (name st verdict : String)
    (hn : jGet fields "homework_name" = some (.str name))
    (hs : jGet fields "status" = some (.str st))
    (hv : HOMEWORK_VERDICTS.lookup st = some verdict) :
    parse_status (.obj fields) =
      (.ok ("Изменился статус проверки работы \"" ++ name ++ "\". " ++
        verdict), []) := by
  simp [parse_status, pyGet, hn, hs, verdictFor, hv, JValue.pyStr]

/-- C5 witness: the item `{"homework_name": "HW1", "status": "approved"}`
translates to exactly the sentence required by the spec. -/
theorem parse_status_known_status_witness :
    parse_status (.obj [("homework_name", .str "HW1"),
        ("status", .str "approved")]) =
      (.ok "Изменился статус проверки работы \"HW1\". Работа проверена: ревьюеру всё понравилось. Ура!",
       []) :=
  parse_status_known_status _ "HW1" "approved"
    "Работа проверена: ревьюеру всё понравилось. Ура!" rfl rfl rfl

/-- C6 counterexample: the claim says `parse_status` raises the
missing-name error *iff* the name field is absent, and raises the
unknown-status error *whenever* the status is not a table key.  Both parts
fail: an item whose `homework_name` field is present but `null` raises the
missing-name `KeyError`, and the empty item (whose status is certainly not
a table key) also raises the missing-name `KeyError`, not the
unknown-status `ValueError`. -/
theorem parse_status_claimed_iff_fails :
    (jGet [("homework_name", JValue.null), ("status", JValue.str "approved")]
        "homework_name" = some JValue.null) ∧
    (parse_status (.obj [("homework_name", JValue.null),
        ("status", JValue.str "approved")])).fst =
      .error (.keyError "Отсутствует ключ \"homework_name\" в домашней работе") ∧
    (parse_status (.obj [])).fst =
      .error (.keyError "Отсутствует ключ \"homework_name\" в домашней работе") :=
  ⟨rfl, rfl, rfl⟩

/-- C6 amended: on a work item, `parse_status` raises
`KeyError "Отсутствует ключ ..."` iff the name field is absent *or bound to
null* (Python `dict.get` returns `None` in both cases; a present
empty-string name passes).  When the name is present and non-null, the
status is looked up in the verdict table: an unhashable status value (a
JSON array or object) makes the lookup itself raise
`TypeError: unhashable type`, and for a hashable status value the item
fails with `ValueError "Неожиданный статус: ..."` iff the lookup finds no
verdict (in particular when `status` is absent, null, or any non-string
hashable value). -/
theorem parse_status_failure_modes (fields : List (String × JValue)) :
    ((pyGet fields "homework_name" = none) ↔
      (jGet fields "homework_name" = none ∨
       jGet fields "homework_name" = some JValue.null)) ∧
    ((parse_status (.obj fields)).fst =
        .error (.keyError "Отсутствует ключ \"homework_name\" в домашней работе") ↔
      pyGet fields "homework_name" = none) ∧
    (∀ nameVal, pyGet fields "homework_name" = some nameVal →
      (∀ xs, pyGet fields "status" = some (.arr xs) →
        (parse_status (.obj fields)).fst =
          .error (.typeError "unhashable type: \x27list\x27")) ∧
      (∀ kvs, pyGet fields "status" = some (.obj kvs) →
        (parse_status (.obj fields)).fst =
          .error (.typeError "unhashable type: \x27dict\x27")) ∧
      (pyHashable (pyGet fields "status") = true →
        ((parse_status (.obj fields)).fst =
            .error (.valueError ("Неожиданный статус: " ++
              pyOptStr (pyGet fields "status"))) ↔
          verdictFor (pyGet fields "status") = .ok none))) := by
  refine ⟨?_, ?_, ?_⟩
  · cases h : jGet fields "homework_name" with
    | none => simp [pyGet, h]
    | some v => cases v <;> simp [pyGet, h]
  · cases h : pyGet fields "homework_name" with
    | none => simp [parse_status, h]
    | some v =>
      cases hs : pyGet fields "status" with
      | none => simp [parse_status, h, hs, verdictFor]
      | some sv =>
          cases sv with
          | str s =>
              cases hl : HOMEWORK_VERDICTS.lookup s <;>
                simp [parse_status, h, hs, verdictFor, hl]
          | null => simp [parse_status, h, hs, verdictFor]
          | bool b => simp [parse_status, h, hs, verdictFor]
          | num n => simp [parse_status, h, hs, verdictFor]
          | arr xs => simp [parse_status, h, hs, verdictFor]
          | obj kvs => simp [parse_status, h, hs, verdictFor]
  · intro nameVal h
    refine ⟨?_, ?_, ?_⟩
    · intro xs hs
      simp [parse_status, h, hs, verdictFor]
    · intro kvs hs
      simp [parse_status, h, hs, verdictFor]
    · intro hh
      cases hs : pyGet fields "status" with
      | none => simp [parse_status, h, hs, verdictFor]
      | some sv =>
          rw [hs] at hh
          cases sv with
          | str s =>
              cases hl : HOMEWORK_VERDICTS.lookup s <;>
                simp [parse_status, h, hs, verdictFor, hl]
          | null => simp [parse_status, h, hs, verdictFor]
          | bool b => simp [parse_status, h, hs, verdictFor]
          | num n => simp [parse_status, h, hs, verdictFor]
          | arr xs => simp [pyHashable, JValue.hashable] at hh
          | obj kvs => simp [pyHashable, JValue.hashable] at hh

/-- C6 amended, witness: an item with an empty-string name and an unknown
string status fails with the unknown-status error (not the missing-name
error), and an item whose status is a JSON array fails with the unhashable
`TypeError` from the table lookup. -/
theorem parse_status_failure_modes_witness :
    (parse_status (.obj [("homework_name", JValue.str ""),
        ("status", JValue.str "nope")])).fst =
      .error (.valueError "Неожиданный статус: nope") ∧
    (parse_status (.obj [("homework_name", JValue.str "x"),
        ("status", JValue.arr [])])).fst =
      .error (.typeError "unhashable type: \x27list\x27") :=
  ⟨(((parse_status_failure_modes
        [("homework_name", JValue.str ""), ("status", JValue.str "nope")]).2.2
      (JValue.str "") rfl).2.2 rfl).mpr rfl,
   ((parse_status_failure_modes
        [("homework_name", JValue.str "x"), ("status", JValue.arr [])]).2.2
      (JValue.str "x") rfl).1 [] rfl⟩

/-- C7: `check_response` fails exactly in the three shape-error cases — a
non-mapping root, a missing `homeworks` key, a `homeworks` value that is
not a sequence — each with its own distinct error, and succeeds on every
other payload. -/
theorem check_response_shape (p : JValue) :
    (specIsMapping p = false →
      (check_response p).fst =
        .error (.typeError "Ответ API должен быть словарем")) ∧
    (specIsMapping p = true → specHasHomeworksKey p = false →
      (check_response p).fst =
        .error (.keyError "Отсутствуют ключи в ответе API")) ∧
    (specHasHomeworksKey p = true → specHomeworksIsList p = false →
      (check_response p).fst =
        .error (.typeError "Данные под ключом \"homeworks\" должны быть списком")) ∧
    (specHomeworksIsList p = true →
      ∃ items, (check_response p).fst = .ok items) ∧
    ((PyExc.typeError "Ответ API должен быть словарем" ≠
        PyExc.keyError "Отсутствуют ключи в ответе API") ∧
     (PyExc.keyError "Отсутствуют ключи в ответе API" ≠
        PyExc.typeError "Данные под ключом \"homeworks\" должны быть списком") ∧
     (PyExc.typeError "Ответ API должен быть словарем" ≠
        PyExc.typeError "Данные под ключом \"homeworks\" должны быть списком")) := by
  refine ⟨?_, ?_, ?_, ?_, by decide⟩ <;>
    cases p <;> simp [check_response, specIsMapping, specHasHomeworksKey,
      specHomeworksIsList]
  case _ fields =>
    cases h : jGet fields "homeworks" with
    | none => simp [h]
    | some v => cases v <;> simp [h]
  case _ fields =>
    cases h : jGet fields "homeworks" with
    | none => simp [h]
    | some v => cases v <;> simp [h]
  case _ fields =>
    cases h : jGet fields "homeworks" with
    | none => simp [h]
    | some v => cases v <;> simp [h]

/-- C7 witness: a non-mapping payload fails with the non-mapping shape error. -/
theorem check_response_shape_witness :
    (check_response (.num 3)).fst =
      .error (.typeError "Ответ API должен быть словарем") :=
  (check_response_shape (.num 3)).1 rfl

/-- C8: a successful validation returns the `homeworks` sequence exactly as
stored in the payload (no mutation, no per-item checks), and re-validating
a mapping holding an already-validated sequence yields the same sequence
again. -/
theorem check_response_idempotent (p : JValue) (hws : List JValue)
    (h : (check_response p).fst = .ok hws) :
    (∃ fields, p = .obj fields ∧
      jGet fields "homeworks" = some (.arr hws)) ∧
    (check_response (.obj [("homeworks", .arr hws)])).fst = .ok hws := by
  constructor
  · cases p with
    | obj fields =>
        refine ⟨fields, rfl, ?_⟩
        cases hj : jGet fields "homeworks" with
        | none => simp [check_response, hj] at h
        | some v =>
            cases v <;> simp [check_response, hj] at h
            simp [h]
    | null => simp [check_response] at h
    | bool b => simp [check_response] at h
    | num n => simp [check_response] at h
    | str s => simp [check_response] at h
    | arr xs => simp [check_response] at h
  · simp [check_response, jGet]

/-- C8 witness: re-validating the validated empty sequence. -/
theorem check_response_idempotent_witness :
    (∃ fields, (JValue.obj [("homeworks", JValue.arr [])]) = .obj fields ∧
      jGet fields "homeworks" = some (.arr [])) ∧
    (check_response (.obj [("homeworks", .arr [])])).fst = .ok [] :=
  check_response_idempotent (.obj [("homeworks", .arr [])]) [] rfl

/-- Associativity of string concatenation (by associativity of the
underlying character lists). -/
theorem str_append_assoc (a b c : String) : a ++ b ++ c = a ++ (b ++ c) := by
  cases a with
  | mk la =>
    cases b with
    | mk lb =>
      cases c with
      | mk lc =>
        show String.mk (la ++ lb ++ lc) = String.mk (la ++ (lb ++ lc))
        rw [List.append_assoc]

/-- C2 counterexample: a delivery failure that is not an
`apihelper.ApiException` — here the transport raising a connection error,
i.e. the destination being unreachable — is not caught by `send_message`
and propagates to the caller, refuting "never raises". -/
theorem send_message_raises :
    send_message "hello" (some (.connectionError "connection refused")) =
      (.error (.connectionError "connection refused"), []) := rfl

/-- C2 amended: `send_message` catches exactly the `ApiException` delivery
failures — those are logged and discarded, and a successful delivery is
logged at debug level — while any other exception raised by the chat
transport propagates to the caller uncaught. -/
theorem send_message_catches_api_errors (message : String)
    (outcome : Option PyExc) :
    (outcome = none →
      send_message message outcome =
        (.ok (), [⟨.debug, "Бот отправил сообщение: \"" ++ message ++ "\""⟩])) ∧
    (∀ m, outcome = some (.apiException m) →
      send_message message outcome =
        (.ok (), [⟨.error, "Сбой при отправке сообщения в Telegram: " ++ m⟩])) ∧
    (∀ e, outcome = some e → e.isApiException = false →
      send_message message outcome = (.error e, [])) := by
  refine ⟨?_, ?_, ?_⟩
  · rintro rfl; rfl
  · rintro m rfl; rfl
  · rintro e rfl he
    simp [send_message, he]

/-- C2 amended, witness: an `ApiException` failure is swallowed and
logged. -/
theorem send_message_catches_api_errors_witness :
    send_message "hi" (some (.apiException "bad token")) =
      (.ok (), [⟨.error, "Сбой при отправке сообщения в Telegram: bad token"⟩]) :=
  (send_message_catches_api_errors "hi"
    (some (.apiException "bad token"))).2.1 "bad token" rfl

/-- C3 counterexample: the two failure modes of `get_api_answer` are not
distinct error kinds.  A received response with a non-OK status raises
`requests.HTTPError`, which is a subclass of `requests.RequestException`
and is therefore caught by the transport handler and re-raised as the same
`AssertionError` kind used for connection failures: both a 404 response and
a refused connection surface as `AssertionError`. -/
theorem get_api_answer_kinds_conflated :
    (get_api_answer 0 (fun _ => .response 404 (.ok (.obj [])))).fst =
      .error (.assertionError
        "Ошибка запроса к API: API вернул неожиданный статус: 404") ∧
    (get_api_answer 0 (fun _ => .netFail "connection refused")).fst =
      .error (.assertionError "Ошибка запроса к API: connection refused") ∧
    PyExc.kind (.assertionError
        "Ошибка запроса к API: API вернул неожиданный статус: 404") =
      PyExc.kind (.assertionError "Ошибка запроса к API: connection refused") :=
  ⟨rfl, rfl, rfl⟩

/-- C3 amended: every failure of `get_api_answer` — transport failure, JSON
decode failure, and non-OK HTTP status alike — is reported as one and the
same `AssertionError` kind wrapping «Ошибка запроса к API: ...»; the non-OK
case goes through an intermediate `HTTPError` whose message carries the
numeric status, so the status survives only in the message text, not as a
distinct error kind.  A 200 response with a well-formed body is returned
decoded. -/
theorem get_api_answer_outcomes (timestamp : Nat)
    (net : Nat → FetchOutcome) :
    (∀ m, net timestamp = .netFail m →
      (get_api_answer timestamp net).fst =
        .error (.assertionError ("Ошибка запроса к API: " ++ m))) ∧
    (∀ status_code body, net timestamp = .response status_code body →
      status_code ≠ 200 →
      (get_api_answer timestamp net).fst =
        .error (.assertionError
          ("Ошибка запроса к API: API вернул неожиданный статус: " ++
            toString status_code))) ∧
    (∀ m, net timestamp = .response 200 (.decodeFail m) →
      (get_api_answer timestamp net).fst =
        .error (.assertionError ("Ошибка запроса к API: " ++ m))) ∧
    (∀ v, net timestamp = .response 200 (.ok v) →
      (get_api_answer timestamp net).fst = .ok v) := by
  refine ⟨?_, ?_, ?_, ?_⟩
  · intro m h
    simp [get_api_answer, h, PyExc.isRequestException, PyExc.pyStr, PyExc.msg]
  · intro status_code body h hne
    cases body <;>
      simp [get_api_answer, h, handle_api_error, hne,
        PyExc.isRequestException, PyExc.pyStr, PyExc.msg] <;>
      rfl
  · intro m h
    simp [get_api_answer, h, handle_api_error,
      PyExc.isRequestException, PyExc.pyStr, PyExc.msg]
  · intro v h
    simp [get_api_answer, h, handle_api_error]

/-- C3 amended, witness: a refused connection is wrapped as
`AssertionError`. -/
theorem get_api_answer_outcomes_witness :
    (get_api_answer 5 (fun _ => .netFail "timeout")).fst =
      .error (.assertionError "Ошибка запроса к API: timeout") :=
  (get_api_answer_outcomes 5 (fun _ => .netFail "timeout")).1 "timeout" rfl

/-- C4 counterexample: with `PRACTICUM_TOKEN` present but empty (and the
other two secrets present), `check_tokens` does fail, but its message names
no secret at all — the empty (hence "missing" per the claim) secret is not
enumerated, because the code lists only values that are `None`. -/
theorem check_tokens_empty_not_named :
    check_tokens (some "") (some "telegram-token") (some "chat-id") =
      (.error (.valueError "Отсутствуют обязательные переменные окружения: "),
       [⟨.critical, "Отсутствуют обязательные переменные окружения: "⟩]) := rfl

/-- C4 amended: `check_tokens` fails exactly when some secret is absent or
empty, succeeds silently (no log) when all three are non-empty, and on
failure the message enumerates exactly the secrets that are *absent*
(`None`) — a present-but-empty secret triggers the failure without being
named.  No network call is modelled because `check_tokens` reads no
transport; moreover on a token failure `mainProgram` stops before running
any loop iteration. -/
theorem check_tokens_gate (practicum_token telegram_token telegram_chat_id :
    Option String) :
    ((truthy practicum_token && truthy telegram_token &&
        truthy telegram_chat_id) = true →
      check_tokens practicum_token telegram_token telegram_chat_id =
        (.ok (), [])) ∧
    ((truthy practicum_token && truthy telegram_token &&
        truthy telegram_chat_id) = false →
      ∃ names : List String,
        check_tokens practicum_token telegram_token telegram_chat_id =
          (.error (.valueError
            ("Отсутствуют обязательные переменные окружения: " ++
              String.intercalate ", " names)),
           [⟨.critical, "Отсутствуют обязательные переменные окружения: " ++
              String.intercalate ", " names⟩]) ∧
        ("PRACTICUM_TOKEN" ∈ names ↔ practicum_token = none) ∧
        ("TELEGRAM_TOKEN" ∈ names ↔ telegram_token = none) ∧
        ("TELEGRAM_CHAT_ID" ∈ names ↔ telegram_chat_id = none)) ∧
    ((truthy practicum_token && truthy telegram_token &&
        truthy telegram_chat_id) = false →
      ∀ (startTime : Nat) (envs : List IterEnv), ∃ e,
        mainProgram startTime practicum_token telegram_token telegram_chat_id
          envs = .error e) := by
  refine ⟨?_, ?_, ?_⟩
  · intro h
    simp [check_tokens, h]
  · intro h
    refine ⟨(if practicum_token = none then ["PRACTICUM_TOKEN"] else []) ++
      (if telegram_token = none then ["TELEGRAM_TOKEN"] else []) ++
      (if telegram_chat_id = none then ["TELEGRAM_CHAT_ID"] else []), ?_, ?_, ?_, ?_⟩
    · simp [check_tokens, h]
    · by_cases hp : practicum_token = none <;>
        by_cases ht : telegram_token = none <;>
        by_cases hc : telegram_chat_id = none <;>
        simp [hp, ht, hc]
    · by_cases hp : practicum_token = none <;>
        by_cases ht : telegram_token = none <;>
        by_cases hc : telegram_chat_id = none <;>
        simp [hp, ht, hc]
    · by_cases hp : practicum_token = none <;>
        by_cases ht : telegram_token = none <;>
        by_cases hc : telegram_chat_id = none <;>
        simp [hp, ht, hc]
  · intro h startTime envs
    refine ⟨.valueError
      ("Отсутствуют обязательные переменные окружения: " ++
        String.intercalate ", "
          ((if practicum_token = none then ["PRACTICUM_TOKEN"] else []) ++
           (if telegram_token = none then ["TELEGRAM_TOKEN"] else []) ++
           (if telegram_chat_id = none then ["TELEGRAM_CHAT_ID"] else []))), ?_⟩
    simp [mainProgram, check_tokens, h]

/-- C4 amended, witness: all secrets absent — the failure enumerates names
covering all three, and the loop never starts. -/
theorem check_tokens_gate_witness :
    (∃ names : List String,
      check_tokens none none none =
        (.error (.valueError
          ("Отсутствуют обязательные переменные окружения: " ++
            String.intercalate ", " names)),
         [⟨.critical, "Отсутствуют обязательные переменные окружения: " ++
            String.intercalate ", " names⟩]) ∧
      ("PRACTICUM_TOKEN" ∈ names ↔ (none : Option String) = none) ∧
      ("TELEGRAM_TOKEN" ∈ names ↔ (none : Option String) = none) ∧
      ("TELEGRAM_CHAT_ID" ∈ names ↔ (none : Option String) = none)) ∧
    (∃ e, mainProgram 0 none none none [] = .error e) :=
  ⟨(check_tokens_gate none none none).2.1 rfl,
   (check_tokens_gate none none none).2.2 rfl 0 []⟩

/-- A send-call outcome that `send_message` survives: successful delivery,
or a failure of the one class it catches. -/
def benignSend (o : Option PyExc) : Prop :=
  o = none ∨ ∃ m, o = some (.apiException m)

/-- Under a benign outcome, `send_message` returns without raising. -/
theorem send_message_benign (message : String) {o : Option PyExc}
    (h : benignSend o) : ∃ lg, send_message message o = (.ok (), lg) := by
  rcases h with rfl | ⟨m, rfl⟩
  · exact ⟨_, rfl⟩
  · exact ⟨_, rfl⟩

/-- Every iteration issues exactly one API request, carrying the
`timestamp` the iteration was entered with. -/
theorem mainIteration_fetched (ts : Nat) (env : IterEnv) :
    (mainIteration ts env).fetched = [ts] := by
  unfold mainIteration
  rcases h : tryBlock ts env with ⟨atts, logs, err⟩
  cases err with
  | none => simp
  | some e =>
      rcases hs : send_message ("Сбой в работе программы: " ++ e.pyStr)
          (env.sendNet atts.length) with ⟨res, slogs⟩
      cases res <;> simp [hs]

/-- Every iteration record of a finite run of the loop fetched with the
loop's `timestamp`. -/
theorem mainLoop_fetched (ts : Nat) :
    ∀ (envs : List IterEnv) (r : IterResult),
      r ∈ (mainLoop ts envs).fst → r.fetched = [ts] := by
  intro envs
  induction envs with
  | nil => intro r h; simp [mainLoop] at h
  | cons env rest ih =>
      intro r h
      unfold mainLoop at h
      cases hr : (mainIteration ts env).raised with
      | some e =>
          simp only [hr] at h
          simp at h
          rw [h]
          exact mainIteration_fetched ts env
      | none =>
          simp only [hr] at h
          simp at h
          rcases h with h | h
          · rw [h]; exact mainIteration_fetched ts env
          · exact ih r h

/-- C9: once `mainProgram` has bound the poll cursor to the startup time,
every iteration of the loop fetches with exactly that cursor — one request
per iteration, never advanced, never updated from response data. -/
theorem poll_cursor_constant (startTime : Nat)
    (practicum_token telegram_token telegram_chat_id : Option String)
    (envs : List IterEnv) (trace : List IterResult) (exc : Option PyExc)
    (h : mainProgram startTime practicum_token telegram_token
      telegram_chat_id envs = .ok (trace, exc)) :
    ∀ r ∈ trace, r.fetched = [startTime] := by
  intro r hr
  unfold mainProgram at h
  cases hck : (check_tokens practicum_token telegram_token
      telegram_chat_id).fst with
  | error e => rw [hck] at h; exact absurd h (by simp)
  | ok u =>
      rw [hck] at h
      simp only [Except.ok.injEq] at h
      have htr : trace = (mainLoop startTime envs).fst := by
        rw [h]
      exact mainLoop_fetched startTime envs r (htr ▸ hr)

/-- A benign environment: the API answers 200 with an empty `homeworks`
list, deliveries succeed. -/
def quietEnv : IterEnv :=
  { net := fun _ => .response 200 (.ok (.obj [("homeworks", .arr [])])),
    sendNet := fun _ => none }

/-- C9 witness: a one-iteration run fetches with the startup cursor. -/
theorem poll_cursor_constant_witness :
    (mainIteration 42 quietEnv).fetched = [42] :=
  poll_cursor_constant 42 (some "a") (some "b") (some "c") [quietEnv]
    (mainLoop 42 [quietEnv]).fst none rfl (mainIteration 42 quietEnv)
    (List.mem_singleton.mpr rfl)

/-- When an iteration raises nothing, the loop records it and goes on to
the remaining iterations. -/
theorem mainLoop_cons_not_raised (ts : Nat) (env : IterEnv)
    (rest : List IterEnv) (h : (mainIteration ts env).raised = none) :
    mainLoop ts (env :: rest) =
      (mainIteration ts env :: (mainLoop ts rest).fst,
       (mainLoop ts rest).snd) := by
  conv_lhs => rw [mainLoop]
  rw [h]

/-- An iteration in which the fetch fails and the chat transport then also
fails with a non-`ApiException` (network unreachable) on the error
notification. -/
def crashEnv : IterEnv :=
  { net := fun _ => .netFail "connection refused",
    sendNet := fun _ => some (.connectionError "network is unreachable") }

/-- C1 counterexample: a fetch error is caught and its failure notification
attempted, but when that notification raises a non-`ApiException` the
exception escapes the iteration: the iteration does not sleep, and the loop
terminates instead of starting another iteration. -/
theorem poll_loop_killed_by_notifier :
    (mainIteration 0 crashEnv).raised =
      some (.connectionError "network is unreachable") ∧
    (mainIteration 0 crashEnv).slept = false ∧
    (mainLoop 0 [crashEnv, quietEnv]).fst.length = 1 ∧
    (mainLoop 0 [crashEnv, quietEnv]).snd =
      some (.connectionError "network is unreachable") :=
  ⟨rfl, rfl, rfl, rfl⟩

/-- C1 amended: whenever the `try:` block of an iteration raises — in
particular on any fetch, validation or translation error — the error is
caught at the iteration boundary and its notification attempted; and
provided that notification attempt is benign (delivered, or failing only
with the caught `ApiException`), the failure message
«Сбой в работе программы: ...» is sent and logged, the iteration sleeps,
nothing escapes it, and the loop goes on to the next iteration.  (If the
notification itself raises anything else, the exception escapes and the
loop terminates.) -/
theorem poll_loop_error_isolated (timestamp : Nat) (env : IterEnv)
    (rest : List IterEnv) (atts : List String) (logs : List LogEntry)
    (e : PyExc)
    (htry : tryBlock timestamp env = (atts, logs, some e))
    (hsend : benignSend (env.sendNet atts.length)) :
    (mainIteration timestamp env).raised = none ∧
    (mainIteration timestamp env).slept = true ∧
    (mainIteration timestamp env).attempts =
      atts ++ ["Сбой в работе программы: " ++ e.pyStr] ∧
    (⟨.error, "Сбой в работе программы: " ++ e.pyStr⟩ : LogEntry) ∈
      (mainIteration timestamp env).logs ∧
    mainLoop timestamp (env :: rest) =
      (mainIteration timestamp env :: (mainLoop timestamp rest).fst,
       (mainLoop timestamp rest).snd) := by
  obtain ⟨lg, hs⟩ :=
    send_message_benign ("Сбой в работе программы: " ++ e.pyStr) hsend
  have hiter : mainIteration timestamp env =
      { fetched := [timestamp],
        attempts := atts ++ ["Сбой в работе программы: " ++ e.pyStr],
        logs := logs ++ lg ++
          [⟨.error, "Сбой в работе программы: " ++ e.pyStr⟩],
        slept := true, raised := none } := by
    unfold mainIteration
    rw [htry]
    simp only [hs]
  refine ⟨by rw [hiter], by rw [hiter], by rw [hiter], ?_, ?_⟩
  · rw [hiter]
    simp
  · exact mainLoop_cons_not_raised timestamp env rest (by rw [hiter])

/-- An iteration whose fetch fails but whose notifications are delivered. -/
def failFetchEnv : IterEnv :=
  { net := fun _ => .netFail "connection refused", sendNet := fun _ => none }

/-- C1 amended, witness: a fetch failure is reported and the loop survives
the iteration. -/
theorem poll_loop_error_isolated_witness :
    (mainIteration 0 failFetchEnv).raised = none ∧
    (mainIteration 0 failFetchEnv).slept = true ∧
    (mainIteration 0 failFetchEnv).attempts =
      [] ++ ["Сбой в работе программы: " ++
        PyExc.pyStr (.assertionError "Ошибка запроса к API: connection refused")] ∧
    (⟨.error, "Сбой в работе программы: " ++
        PyExc.pyStr (.assertionError "Ошибка запроса к API: connection refused")⟩ :
      LogEntry) ∈ (mainIteration 0 failFetchEnv).logs ∧
    mainLoop 0 [failFetchEnv] =
      (mainIteration 0 failFetchEnv :: (mainLoop 0 []).fst,
       (mainLoop 0 []).snd) :=
  poll_loop_error_isolated 0 failFetchEnv [] []
    [⟨.error, "Ошибка запроса к API: connection refused"⟩]
    (.assertionError "Ошибка запроса к API: connection refused") rfl
    (Or.inl rfl)

/-- Running the `for` body over a block of items that all translate
successfully, with benign deliveries: each item contributes exactly its
message, in list order, and processing continues on the remaining items
with the send counter advanced past the block. -/
theorem processHomeworks_ok_items (sendNet : Nat → Option PyExc) :
    ∀ (pre : List JValue) (msgs : List String) (n : Nat),
      pre.map (fun hw => (parse_status hw).fst) = msgs.map Except.ok →
      (∀ i, i < pre.length → benignSend (sendNet (n + i))) →
      ∀ tail,
        (processHomeworks sendNet n (pre ++ tail)).1 =
          msgs ++ (processHomeworks sendNet (n + pre.length) tail).1 ∧
        (processHomeworks sendNet n (pre ++ tail)).2.2 =
          (processHomeworks sendNet (n + pre.length) tail).2.2 := by
  intro pre
  induction pre with
  | nil =>
      intro msgs n hm hb tail
      have hmsgs : msgs = [] := by
        cases msgs with
        | nil => rfl
        | cons m ms => simp at hm
      subst hmsgs
      simp
  | cons hw pre ih =>
      intro msgs n hm hb tail
      cases msgs with
      | nil => simp at hm
      | cons m ms =>
          simp only [List.map_cons, List.cons.injEq] at hm
          obtain ⟨h1, h2⟩ := hm
          rcases hp : parse_status hw with ⟨res, plogs⟩
          rw [hp] at h1
          simp only at h1
          subst h1
          obtain ⟨lg, hs⟩ := send_message_benign m (hb 0 (by simp))
          rw [Nat.add_zero] at hs
          have hb' : ∀ i, i < pre.length → benignSend (sendNet (n + 1 + i)) := by
            intro i hi
            have hx := hb (i + 1) (by simpa using Nat.succ_lt_succ hi)
            rwa [show n + (i + 1) = n + 1 + i by omega] at hx
          obtain ⟨ih1, ih2⟩ := ih ms (n + 1) h2 hb' tail
          rcases hrec : processHomeworks sendNet (n + 1) (pre ++ tail)
            with ⟨atts, logs2, err⟩
          rw [hrec] at ih1 ih2
          have hidx : n + (pre.length + 1) = n + 1 + pre.length := by omega
          constructor
          · show (processHomeworks sendNet n (hw :: (pre ++ tail))).1 = _
            simp only [processHomeworks, hp, hs, hrec]
            simp [List.length_cons, hidx]
            exact ih1
          · show (processHomeworks sendNet n (hw :: (pre ++ tail))).2.2 = _
            simp only [processHomeworks, hp, hs, hrec]
            simp [List.length_cons, hidx]
            exact ih2

/-- C10: within one iteration whose payload holds the items
`pre ++ bad :: post`, where every item of `pre` translates successfully
(to `msgs`, with benign deliveries) and `bad` fails to translate, the
messages handed to the chat transport are exactly the messages of `pre` in
sequence order followed by the single failure notification — the earlier
notifications stay dispatched, the items after the failing one are never
reached, and exactly one error notification is attempted. -/
theorem items_in_order_until_translate_failure (timestamp : Nat)
    (env : IterEnv) (pre : List JValue) (bad : JValue) (post : List JValue)
    (msgs : List String) (e : PyExc)
    (hnet : env.net timestamp =
      .response 200 (.ok (.obj [("homeworks", .arr (pre ++ bad :: post))])))
    (hpre : pre.map (fun hw => (parse_status hw).fst) = msgs.map Except.ok)
    (hsend : ∀ i, i < pre.length → benignSend (env.sendNet i))
    (hbad : (parse_status bad).fst = .error e) :
    (mainIteration timestamp env).attempts =
      msgs ++ ["Сбой в работе программы: " ++ e.pyStr] := by
  have hga : get_api_answer timestamp env.net =
      (.ok (.obj [("homeworks", .arr (pre ++ bad :: post))]), []) := by
    simp [get_api_answer, hnet, handle_api_error]
  have hcr : check_response (.obj [("homeworks", .arr (pre ++ bad :: post))]) =
      (.ok (pre ++ bad :: post), []) := by
    simp [check_response, jGet]
  rcases hpb : parse_status bad with ⟨resb, plogsb⟩
  rw [hpb] at hbad
  simp only at hbad
  subst hbad
  obtain ⟨h1, h2⟩ := processHomeworks_ok_items env.sendNet pre msgs 0 hpre
    (by simpa using hsend) (bad :: post)
  have hbadrun : processHomeworks env.sendNet (0 + pre.length)
      (bad :: post) = ([], plogsb, some e) := by
    simp only [processHomeworks, hpb]
  rw [hbadrun] at h1 h2
  rcases hph : processHomeworks env.sendNet 0 (pre ++ bad :: post)
    with ⟨atts, lgs, err⟩
  rw [hph] at h1 h2
  simp only at h1 h2
  simp only [List.append_nil] at h1
  subst h1
  subst h2
  have hne : (pre ++ bad :: post).isEmpty = false := by
    cases pre <;> simp [List.isEmpty]
  have htry : tryBlock timestamp env = (atts, [] ++ [] ++ lgs, some e) := by
    simp only [tryBlock, hga, hcr, hne, hph]
    simp
  rcases hsm : send_message ("Сбой в работе программы: " ++ e.pyStr)
    (env.sendNet atts.length) with ⟨res, slogs⟩
  cases res <;> simp [mainIteration, htry, hsm]

/-- An iteration delivering three items, the second of which carries an
unknown status. -/
def threeItemEnv : IterEnv :=
  { net := fun _ => .response 200 (.ok (.obj [("homeworks", .arr
      [.obj [("homework_name", .str "HW1"), ("status", .str "approved")],
       .obj [("homework_name", .str "HW2"), ("status", .str "oops")],
       .obj [("homework_name", .str "HW3"), ("status", .str "rejected")]])])),
    sendNet := fun _ => none }

/-- C10 witness: the first item's notification is dispatched, the failing
second item yields the single error notification, the third item is never
notified. -/
theorem items_in_order_until_translate_failure_witness :
    (mainIteration 7 threeItemEnv).attempts =
      ["Изменился статус проверки работы \"HW1\". Работа проверена: ревьюеру всё понравилось. Ура!"] ++
      ["Сбой в работе программы: " ++
        PyExc.pyStr (.valueError "Неожиданный статус: oops")] :=
  items_in_order_until_translate_failure 7 threeItemEnv
    [.obj [("homework_name", .str "HW1"), ("status", .str "approved")]]
    (.obj [("homework_name", .str "HW2"), ("status", .str "oops")])
    [.obj [("homework_name", .str "HW3"), ("status", .str "rejected")]]
    ["Изменился статус проверки работы \"HW1\". Работа проверена: ревьюеру всё понравилось. Ура!"]
    (.valueError "Неожиданный статус: oops") rfl rfl
    (fun _ _ => Or.inl rfl) rfl
